import Mathlib

/-!
Shallow embedding of `Run` from `src/daemon/daemon.go` (package daemon of
drone-runner-exec).

`Run(parentCtx, config)` does, in order (line numbers refer to daemon.go):
  34  derives a cancellable context `ctx` from the parent and keeps the
      cancel function `cancelBySingleStageMode`; `defer cancel` at return;
  36  `isScheduledExit := false`;
  99  `var g errgroup.Group` — the ZERO-VALUE errgroup: it has no attached
      context, so a failing task does NOT cancel anything; `Wait` only
      retains the first non-nil error in completion order;
 100  if `config.Server.Port != "false"`, starts the status server task
      `g.Go(func() { return server.ListenAndServe(ctx) })` — note this
      happens BEFORE the ping loop;
 123  ping loop: `err := cli.Ping(ctx, name)`; then a non-blocking
      `select` on `ctx.Done()` which makes `Run` return nil at once; then
      a second check `if ctx.Err() != nil { break }` which instead falls
      through to the concurrent phase; on ping error sleeps one second and
      retries (unbounded, fixed interval); on ping success breaks;
 143  starts the poller task: in single-stage mode (capacity < 1) it runs
      one `poller.Poll(ctx, 0)`; on success sets `isScheduledExit = true`;
      in both cases calls `cancelBySingleStageMode()` and returns nil; in
      continuous mode it runs `poller.Poll(ctx, capacity)` and returns
      nil, DISCARDING the poll result;
 169  `err := g.Wait()`; if `err != nil && err == context.Canceled &&
      isScheduledExit` returns nil, otherwise returns `err`.

External collaborators (client.Ping, poller.Poll, server.ListenAndServe,
the two cancellation observations) are oracles collected in `Env`; the
scheduling freedom at the join is the completion-order bit
`serverFinishesFirst`.  The ping loop is unbounded in Go, so `gateLoop`
takes fuel and `Run` is `Option`-valued: `none` means the modelled
execution needs more fuel than supplied.
-/

namespace Daemon

/-- Go error values that `Run` distinguishes: the `context.Canceled`
sentinel (compared by `==` at daemon.go:171) and any other non-nil error,
told apart by an arbitrary code. `Option Err` models a Go `error`, with
`none` for nil. -/
inductive Err where
  | canceled
  | other (code : Nat)
deriving DecidableEq, Repr

/-- Observable events of one execution of `Run`, in program order of the
main goroutine (task-body events are placed where the task runs relative
to the join, which is all the claims need). -/
inductive Event where
  | serverTaskStarted
  | pingAttempt (n : Nat)
  | sleepSecond
  | gateCompleted
  | pollerTaskStarted
  | pollCall (capacity : Int)
  | setScheduledExit
  | cancelShared
  | joinCompleted (err : Option Err)
deriving DecidableEq, Repr

/-- The two configuration fields `Run` consults for control flow:
`config.Server.Port` (daemon.go:100, the string "false" disables the
status server) and `config.Runner.Capacity` (daemon.go:150, `< 1`
selects single-stage mode). The `Config` struct itself lives outside
src/; these fields and their meaning are as the spec's configuration
table describes them. -/
structure Config where
  serverPort : String
  capacity : Int
deriving DecidableEq, Repr

/-- Oracle for everything outside `Run` itself: results of the external
calls and the two per-iteration cancellation observations of the ping
loop, plus the completion order of the two tasks at the join. -/
structure Env where
  pingErr : Nat → Option Err
  doneSelect : Nat → Bool
  doneErrCheck : Nat → Bool
  pollResult : Option Err
  serveResult : Option Err
  serverFinishesFirst : Bool

/-- daemon.go:100, `config.Server.Port != "false"`. -/
def serverEnabled (config : Config) : Bool :=
  config.serverPort != "false"

/-- Events emitted before the ping loop: the status server task is
started at daemon.go:113, before the loop, when enabled. -/
def startEvents (config : Config) : List Event :=
  if serverEnabled config then [Event.serverTaskStarted] else []

/-- How the ping loop at daemon.go:123-141 ends: `earlyReturn` is the
`return nil` inside the `select` (line 127), `brokeCancelled` is the
`break` at line 131 when `ctx.Err() != nil`, `connected` is the `break`
at line 139 after a successful ping. -/
inductive GateOutcome where
  | earlyReturn
  | brokeCancelled
  | connected
deriving DecidableEq, Repr

/-- Prefixes one failed iteration (a ping attempt followed by the fixed
one-second sleep of daemon.go:136) onto a loop continuation. -/
def prependRetry (n : Nat) (r : GateOutcome × List Event) : GateOutcome × List Event :=
  (r.1, Event.pingAttempt n :: Event.sleepSecond :: r.2)

/-- The ping loop of daemon.go:123-141, fueled because the Go loop is
unbounded. Iteration `n`: ping; if the `select` observes `ctx.Done`,
return nil from `Run`; if `ctx.Err() != nil`, break; on ping error sleep
one second and continue; on ping success break. -/
def gateLoop (env : Env) : Nat → Nat → Option (GateOutcome × List Event)
  | 0, _ => none
  | fuel + 1, n =>
    if env.doneSelect n then some (GateOutcome.earlyReturn, [Event.pingAttempt n])
    else if env.doneErrCheck n then some (GateOutcome.brokeCancelled, [Event.pingAttempt n])
    else
      match env.pingErr n with
      | some _ => (gateLoop env fuel (n + 1)).map (prependRetry n)
      | none => some (GateOutcome.connected, [Event.pingAttempt n])

/-- The events the ping loop emits, starting from attempt 0. -/
def gateEventsOf (env : Env) (fuel : Nat) : List Event :=
  ((gateLoop env fuel 0).map Prod.snd).getD []

/-- The events the ping loop can emit: ping attempts and sleeps. -/
def isGateEvent : Event → Bool
  | Event.pingAttempt _ => true
  | Event.sleepSecond => true
  | _ => false

/-- Recognises a `poller.Poll` call event. -/
def isPollCall : Event → Bool
  | Event.pollCall _ => true
  | _ => false

/-- What the poller task body does besides its events: the error it
returns to the errgroup, whether it wrote `isScheduledExit = true`, and
whether it called `cancelBySingleStageMode()`. -/
structure PollerEffects where
  events : List Event
  retErr : Option Err
  setFlag : Bool
  cancelled : Bool
deriving DecidableEq, Repr

/-- The poller task body, daemon.go:143-167. Single-stage mode
(capacity < 1): one `poller.Poll(ctx, 0)`; on a nil result set the
scheduled-exit flag; in both cases call `cancelBySingleStageMode()` and
return nil. Continuous mode: `poller.Poll(ctx, capacity)` with the
result discarded, return nil. -/
def pollerTask (capacity : Int) (pollResult : Option Err) : PollerEffects :=
  if capacity < 1 then
    match pollResult with
    | some _ =>
      { events := [Event.pollCall 0, Event.cancelShared]
        retErr := none, setFlag := false, cancelled := true }
    | none =>
      { events := [Event.pollCall 0, Event.setScheduledExit, Event.cancelShared]
        retErr := none, setFlag := true, cancelled := true }
  else
    { events := [Event.pollCall capacity]
      retErr := none, setFlag := false, cancelled := false }

/-- `errgroup.Group.Wait` for the zero-value group of daemon.go:99: the
first non-nil error in completion order is retained, later ones are
discarded; there is no attached context, so nothing is cancelled. -/
def errgroupWait (completionOrder : List (Option Err)) : Option Err :=
  completionOrder.findSome? id

/-- The task results in completion order: the server result is present
only when the server was enabled, and `serverFinishesFirst` says which
task reached the errgroup first. -/
def joinResults (config : Config) (env : Env) (pollerRet : Option Err) : List (Option Err) :=
  if serverEnabled config then
    if env.serverFinishesFirst then [env.serveResult, pollerRet]
    else [pollerRet, env.serveResult]
  else [pollerRet]

/-- The shutdown classification of daemon.go:169-180:
`if err != nil && err == context.Canceled && isScheduledExit { return nil }`,
otherwise `return err`. -/
def classify (err : Option Err) (isScheduledExit : Bool) : Option Err :=
  if err ≠ none ∧ err = some Err.canceled ∧ isScheduledExit = true then none
  else err

/-- The join error of an execution that reaches `g.Wait()`. -/
def joinErrOf (config : Config) (env : Env) : Option Err :=
  errgroupWait (joinResults config env (pollerTask config.capacity env.pollResult).retErr)

/-- Events of the concurrent phase after the poller task starts. -/
def concurrentTail (config : Config) (env : Env) : List Event :=
  (pollerTask config.capacity env.pollResult).events
    ++ [Event.joinCompleted (joinErrOf config env)]

/-- Everything the claims observe about one execution of `Run`. -/
structure RunResult where
  events : List Event
  serverStarted : Bool
  pollerStarted : Bool
  joinPerformed : Bool
  joinErr : Option Err
  isScheduledExit : Bool
  sharedCancelledByPoller : Bool
  ret : Option Err
deriving DecidableEq, Repr

/-- Outcome of the `return nil` inside the ping loop (daemon.go:127):
no poller task, no join; the server task, when enabled, was already
started and is not waited for. -/
def earlyResult (config : Config) (gateEvents : List Event) : RunResult :=
  { events := startEvents config ++ gateEvents
    serverStarted := serverEnabled config
    pollerStarted := false
    joinPerformed := false
    joinErr := none
    isScheduledExit := false
    sharedCancelledByPoller := false
    ret := none }

/-- Outcome of an execution that falls out of the ping loop by `break`:
the poller task is started, `g.Wait()` runs, and its error is classified
by daemon.go:169-180. -/
def concurrentPhase (config : Config) (env : Env) (gateEvents : List Event) : RunResult :=
  { events := startEvents config ++ gateEvents
      ++ Event.gateCompleted :: Event.pollerTaskStarted :: concurrentTail config env
    serverStarted := serverEnabled config
    pollerStarted := true
    joinPerformed := true
    joinErr := joinErrOf config env
    isScheduledExit := (pollerTask config.capacity env.pollResult).setFlag
    sharedCancelledByPoller := (pollerTask config.capacity env.pollResult).cancelled
    ret := classify (joinErrOf config env) (pollerTask config.capacity env.pollResult).setFlag }

/-- `Run` of daemon.go:33-181, as a function of the configuration, the
oracle environment and the loop fuel. `none` means the supplied fuel ran
out inside the unbounded ping loop. -/
def Run (config : Config) (env : Env) (fuel : Nat) : Option RunResult :=
  match gateLoop env fuel 0 with
  | none => none
  | some (GateOutcome.earlyReturn, gev) => some (earlyResult config gev)
  | some (GateOutcome.brokeCancelled, gev) => some (concurrentPhase config env gev)
  | some (GateOutcome.connected, gev) => some (concurrentPhase config env gev)

/-- Recognises the server-start event. -/
def isServerStart : Event → Bool
  | Event.serverTaskStarted => true
  | _ => false

/-- Recognises the gate-completion event. -/
def isGateCompleted : Event → Bool
  | Event.gateCompleted => true
  | _ => false

/-! ### Concrete configurations, environments and runs used below -/

/-- Pings succeed at once, no cancellation, poll clean, server would end
with the cancellation condition, server reaches the join first. -/
def envOk : Env :=
  { pingErr := fun _ => none, doneSelect := fun _ => false, doneErrCheck := fun _ => false
    pollResult := none, serveResult := some Err.canceled, serverFinishesFirst := true }

/-- Like `envOk` but the poll cycle fails with a non-cancellation error. -/
def envPollFail : Env :=
  { pingErr := fun _ => none, doneSelect := fun _ => false, doneErrCheck := fun _ => false
    pollResult := some (Err.other 7), serveResult := some Err.canceled
    serverFinishesFirst := true }

/-- Like `envOk` but the server task fails with a non-cancellation error
and reaches the join first. -/
def envServeFail : Env :=
  { pingErr := fun _ => none, doneSelect := fun _ => false, doneErrCheck := fun _ => false
    pollResult := none, serveResult := some (Err.other 3), serverFinishesFirst := true }

/-- The parent lifetime is already over when the ping loop starts: every
cancellation observation fires, pings fail. -/
def envCancelNow : Env :=
  { pingErr := fun _ => some (Err.other 0), doneSelect := fun _ => true
    doneErrCheck := fun _ => true, pollResult := none
    serveResult := some Err.canceled, serverFinishesFirst := true }

/-- The remote server is unreachable forever and nothing cancels. -/
def envPingFail : Env :=
  { pingErr := fun _ => some (Err.other 0), doneSelect := fun _ => false
    doneErrCheck := fun _ => false, pollResult := none
    serveResult := some Err.canceled, serverFinishesFirst := true }

/-- Status server enabled, continuous mode. -/
def cfgOnCont : Config := { serverPort := "3000", capacity := 1 }

/-- Status server disabled, continuous mode. -/
def cfgOffCont : Config := { serverPort := "false", capacity := 1 }

/-- Status server enabled, single-stage mode. -/
def cfgOnSingle : Config := { serverPort := "3000", capacity := 0 }

/-- Status server disabled, single-stage mode. -/
def cfgOffSingle : Config := { serverPort := "false", capacity := 0 }

/-- The run of `cfgOnCont` under `envOk`. -/
def rOnContOk : RunResult :=
  { events := [Event.serverTaskStarted, Event.pingAttempt 0, Event.gateCompleted,
      Event.pollerTaskStarted, Event.pollCall 1, Event.joinCompleted (some Err.canceled)]
    serverStarted := true, pollerStarted := true, joinPerformed := true
    joinErr := some Err.canceled, isScheduledExit := false
    sharedCancelledByPoller := false, ret := some Err.canceled }

/-- The run of `cfgOffCont` under `envPollFail`. -/
def rOffContPollFail : RunResult :=
  { events := [Event.pingAttempt 0, Event.gateCompleted, Event.pollerTaskStarted,
      Event.pollCall 1, Event.joinCompleted none]
    serverStarted := false, pollerStarted := true, joinPerformed := true
    joinErr := none, isScheduledExit := false
    sharedCancelledByPoller := false, ret := none }

/-- The run of `cfgOnSingle` under `envPollFail`. -/
def rOnSinglePollFail : RunResult :=
  { events := [Event.serverTaskStarted, Event.pingAttempt 0, Event.gateCompleted,
      Event.pollerTaskStarted, Event.pollCall 0, Event.cancelShared,
      Event.joinCompleted (some Err.canceled)]
    serverStarted := true, pollerStarted := true, joinPerformed := true
    joinErr := some Err.canceled, isScheduledExit := false
    sharedCancelledByPoller := true, ret := some Err.canceled }

/-- The run of `cfgOnSingle` under `envOk`: the scheduled-clean shutdown. -/
def rOnSingleOk : RunResult :=
  { events := [Event.serverTaskStarted, Event.pingAttempt 0, Event.gateCompleted,
      Event.pollerTaskStarted, Event.pollCall 0, Event.setScheduledExit,
      Event.cancelShared, Event.joinCompleted (some Err.canceled)]
    serverStarted := true, pollerStarted := true, joinPerformed := true
    joinErr := some Err.canceled, isScheduledExit := true
    sharedCancelledByPoller := true, ret := none }

/-- The run of `cfgOnCont` under `envCancelNow`: the early return inside
the ping loop. -/
def rOnContCancelNow : RunResult :=
  { events := [Event.serverTaskStarted, Event.pingAttempt 0]
    serverStarted := true, pollerStarted := false, joinPerformed := false
    joinErr := none, isScheduledExit := false
    sharedCancelledByPoller := false, ret := none }

/-- The run of `cfgOnCont` under `envServeFail`. -/
def rOnContServeFail : RunResult :=
  { events := [Event.serverTaskStarted, Event.pingAttempt 0, Event.gateCompleted,
      Event.pollerTaskStarted, Event.pollCall 1, Event.joinCompleted (some (Err.other 3))]
    serverStarted := true, pollerStarted := true, joinPerformed := true
    joinErr := some (Err.other 3), isScheduledExit := false
    sharedCancelledByPoller := false, ret := some (Err.other 3) }

/-! ### Helper lemmas -/

/-- The poller task function returns nil in both modes (the continuous
branch discards the poll result, the single-stage branch suppresses it). -/
lemma pollerTask_retErr (c : Int) (p : Option Err) : (pollerTask c p).retErr = none := by
  unfold pollerTask
  split
  · cases p <;> rfl
  · rfl

/-- The join error collapses: the poller contributes nil, so the join
retains the server result exactly when the server was enabled. -/
lemma joinErrOf_eq (config : Config) (env : Env) :
    joinErrOf config env = if serverEnabled config then env.serveResult else none := by
  unfold joinErrOf
  rw [pollerTask_retErr]
  unfold joinResults errgroupWait
  cases hse : serverEnabled config
  · simp
  · cases env.serverFinishesFirst <;> cases env.serveResult <;> simp [List.findSome?]

/-- A nil join error is classified as clean. -/
lemma classify_none (flag : Bool) : classify none flag = none := by
  unfold classify
  rw [if_neg]
  rintro ⟨hn, -, -⟩
  exact hn rfl

/-- With the scheduled-exit flag false the join error passes through. -/
lemma classify_flag_false (e : Option Err) : classify e false = e := by
  unfold classify
  rw [if_neg]
  rintro ⟨-, -, hf⟩
  exact Bool.false_ne_true hf

/-- The one suppressed case: cancellation with the flag set. -/
lemma classify_canceled_true : classify (some Err.canceled) true = none := by
  unfold classify
  rw [if_pos]
  exact ⟨by simp, rfl, rfl⟩

/-- Any case other than cancellation-with-flag passes through. -/
lemma classify_some_of_not (e : Err) (flag : Bool)
    (h : ¬(e = Err.canceled ∧ flag = true)) : classify (some e) flag = some e := by
  unfold classify
  rw [if_neg]
  rintro ⟨-, h1, h2⟩
  injection h1 with h1
  exact h ⟨h1, h2⟩

/-- Every terminating execution of `Run` either returned nil from inside
the ping loop or went through the concurrent phase. -/
lemma Run_eq_cases (config : Config) (env : Env) (fuel : Nat) (r : RunResult)
    (h : Run config env fuel = some r) :
    (∃ gev, gateLoop env fuel 0 = some (GateOutcome.earlyReturn, gev)
      ∧ r = earlyResult config gev)
    ∨ (∃ o gev, gateLoop env fuel 0 = some (o, gev) ∧ o ≠ GateOutcome.earlyReturn
      ∧ r = concurrentPhase config env gev) := by
  unfold Run at h
  cases hg : gateLoop env fuel 0 with
  | none => rw [hg] at h; exact absurd h (by simp)
  | some p =>
    obtain ⟨o, gev⟩ := p
    rw [hg] at h
    cases o with
    | earlyReturn => exact Or.inl ⟨gev, rfl, (Option.some.inj h).symm⟩
    | brokeCancelled => exact Or.inr ⟨_, gev, rfl, by simp, (Option.some.inj h).symm⟩
    | connected => exact Or.inr ⟨_, gev, rfl, by simp, (Option.some.inj h).symm⟩

/-- The ping loop emits only ping attempts and sleeps. -/
lemma gateLoop_events (env : Env) :
    ∀ fuel n o gev, gateLoop env fuel n = some (o, gev) → gev.all isGateEvent = true := by
  intro fuel
  induction fuel with
  | zero => intro n o gev h; exact absurd h (by simp [gateLoop])
  | succ f ih =>
    intro n o gev h
    unfold gateLoop at h
    split at h
    · injection h with h
      cases h
      rfl
    · split at h
      · injection h with h
        cases h
        rfl
      · split at h
        · cases hrec : gateLoop env f (n + 1) with
          | none => rw [hrec] at h; exact absurd h (by simp)
          | some q =>
            obtain ⟨o2, gev2⟩ := q
            rw [hrec] at h
            injection h with h
            cases h
            have hall := ih (n + 1) o2 gev2 hrec
            simp [prependRetry, isGateEvent, hall]
        · injection h with h
          cases h
          rfl

/-- With the remote server down forever and no cancellation, the ping
loop never terminates: it has no retry limit. -/
lemma gateLoop_none_of_ping_fail (env : Env)
    (hsel : ∀ k, env.doneSelect k = false) (herr : ∀ k, env.doneErrCheck k = false)
    (hping : ∀ k, env.pingErr k ≠ none) :
    ∀ fuel n, gateLoop env fuel n = none := by
  intro fuel
  induction fuel with
  | zero => intro n; rfl
  | succ f ih =>
    intro n
    unfold gateLoop
    rw [hsel n, herr n]
    simp only [Bool.false_eq_true, if_false]
    cases hp : env.pingErr n with
    | none => exact absurd hp (hping n)
    | some e => rw [ih (n + 1)]; rfl

/-- If the first `d` iterations keep retrying and the cancellation is
observed at the `select` of iteration `base + d`, the ping loop ends in
the early `return nil`, given enough fuel. -/
lemma gateLoop_reach (env : Env) :
    ∀ d base fuel,
      (∀ k, k < d → env.doneSelect (base + k) = false ∧ env.doneErrCheck (base + k) = false
        ∧ env.pingErr (base + k) ≠ none) →
      env.doneSelect (base + d) = true → d < fuel →
      ∃ gev, gateLoop env fuel base = some (GateOutcome.earlyReturn, gev) := by
  intro d
  induction d with
  | zero =>
    intro base fuel hcont hd hf
    obtain ⟨f, rfl⟩ : ∃ f, fuel = f + 1 := ⟨fuel - 1, by omega⟩
    refine ⟨[Event.pingAttempt base], ?_⟩
    have hd0 : env.doneSelect base = true := by simpa using hd
    unfold gateLoop
    rw [hd0]
    rfl
  | succ d ih =>
    intro base fuel hcont hd hf
    obtain ⟨f, rfl⟩ : ∃ f, fuel = f + 1 := ⟨fuel - 1, by omega⟩
    obtain ⟨hs, he, hp⟩ := hcont 0 (Nat.succ_pos d)
    have hs0 : env.doneSelect base = false := by simpa using hs
    have he0 : env.doneErrCheck base = false := by simpa using he
    have hp0 : env.pingErr base ≠ none := by simpa using hp
    have hcont2 : ∀ k, k < d → env.doneSelect (base + 1 + k) = false
        ∧ env.doneErrCheck (base + 1 + k) = false ∧ env.pingErr (base + 1 + k) ≠ none := by
      intro k hk
      have heq : base + 1 + k = base + (k + 1) := by omega
      rw [heq]
      exact hcont (k + 1) (by omega)
    have hd2 : env.doneSelect (base + 1 + d) = true := by
      have heq : base + 1 + d = base + (d + 1) := by omega
      rw [heq]
      exact hd
    obtain ⟨gev, hg⟩ := ih (base + 1) f hcont2 hd2 (by omega)
    refine ⟨Event.pingAttempt base :: Event.sleepSecond :: gev, ?_⟩
    unfold gateLoop
    rw [hs0, he0]
    simp only [Bool.false_eq_true, if_false]
    cases hpe : env.pingErr base with
    | none => exact absurd hpe hp0
    | some e => rw [hg]; rfl

/-- Field reading of the concurrent-phase outcome: the return value. -/
lemma concurrentPhase_ret (config : Config) (env : Env) (gev : List Event) :
    (concurrentPhase config env gev).ret
      = classify (joinErrOf config env) (pollerTask config.capacity env.pollResult).setFlag := rfl

/-- Field reading of the concurrent-phase outcome: the join error. -/
lemma concurrentPhase_joinErr (config : Config) (env : Env) (gev : List Event) :
    (concurrentPhase config env gev).joinErr = joinErrOf config env := rfl

/-- Field reading of the concurrent-phase outcome: the flag. -/
lemma concurrentPhase_flag (config : Config) (env : Env) (gev : List Event) :
    (concurrentPhase config env gev).isScheduledExit
      = (pollerTask config.capacity env.pollResult).setFlag := rfl

/-- Field reading of the concurrent-phase outcome: the internal cancel. -/
lemma concurrentPhase_cancelled (config : Config) (env : Env) (gev : List Event) :
    (concurrentPhase config env gev).sharedCancelledByPoller
      = (pollerTask config.capacity env.pollResult).cancelled := rfl

/-! ### Claims -/

/-- Claim C3 (confirmed): in every execution of `Run` that reaches the
concurrent join, the retained error is classified exactly as
daemon.go:169-180 does it: cancellation with the scheduled-exit flag set
returns nil; a nil join error returns nil; any other non-nil join error
is returned as is. -/
theorem C3_shutdown_classification (config : Config) (env : Env) (fuel : Nat)
    (r : RunResult) (e : Err)
    (h : Run config env fuel = some r) (hj : r.joinPerformed = true) :
    (r.joinErr = some Err.canceled ∧ r.isScheduledExit = true → r.ret = none)
    ∧ (r.joinErr = none → r.ret = none)
    ∧ (r.joinErr = some e → ¬(e = Err.canceled ∧ r.isScheduledExit = true) → r.ret = some e) := by
  rcases Run_eq_cases config env fuel r h with ⟨gev, hg, rfl⟩ | ⟨o, gev, hg, ho, rfl⟩
  · simp [earlyResult] at hj
  · simp only [concurrentPhase_joinErr, concurrentPhase_ret, concurrentPhase_flag]
    refine ⟨?_, ?_, ?_⟩
    · rintro ⟨h1, h2⟩
      rw [h1, h2]
      exact classify_canceled_true
    · intro h1
      rw [h1]
      exact classify_none _
    · intro h1 h2
      rw [h1]
      exact classify_some_of_not e _ h2

/-- Witness for C3: the scheduled-clean run of single-stage mode with
the status server enabled. -/
theorem C3_shutdown_classification_witness :
    (rOnSingleOk.joinErr = some Err.canceled ∧ rOnSingleOk.isScheduledExit = true
      → rOnSingleOk.ret = none)
    ∧ (rOnSingleOk.joinErr = none → rOnSingleOk.ret = none)
    ∧ (rOnSingleOk.joinErr = some Err.canceled
      → ¬(Err.canceled = Err.canceled ∧ rOnSingleOk.isScheduledExit = true)
      → rOnSingleOk.ret = some Err.canceled) :=
  C3_shutdown_classification cfgOnSingle envOk 1 rOnSingleOk Err.canceled
    (by decide) (by decide)

/-- Claim C4 (confirmed): in single-stage mode (capacity below 1) the
poller task performs exactly one poll cycle; a clean cycle sets the
scheduled-exit flag and then triggers the shared cancel; a failing cycle
leaves the flag unset but still triggers the shared cancel; in both
cases the task returns nil to the join (daemon.go:150-163). -/
theorem C4_single_shot_poller (capacity : Int) (pollResult : Option Err)
    (hcap : capacity < 1) :
    (pollerTask capacity pollResult).events.countP isPollCall = 1
    ∧ (pollerTask capacity pollResult).retErr = none
    ∧ (pollerTask capacity pollResult).cancelled = true
    ∧ (pollResult = none →
        (pollerTask capacity pollResult).events
          = [Event.pollCall 0, Event.setScheduledExit, Event.cancelShared]
        ∧ (pollerTask capacity pollResult).setFlag = true)
    ∧ (pollResult ≠ none →
        (pollerTask capacity pollResult).events = [Event.pollCall 0, Event.cancelShared]
        ∧ (pollerTask capacity pollResult).setFlag = false) := by
  unfold pollerTask
  rw [if_pos hcap]
  cases pollResult with
  | none =>
    exact ⟨rfl, rfl, rfl, fun _ => ⟨rfl, rfl⟩, fun hne => absurd rfl hne⟩
  | some e =>
    exact ⟨rfl, rfl, rfl, fun hh => by simp at hh, fun _ => ⟨rfl, rfl⟩⟩

/-- Witness for C4 at capacity 0 with a clean poll cycle. -/
theorem C4_single_shot_poller_witness :
    (pollerTask 0 none).events.countP isPollCall = 1
    ∧ (pollerTask 0 none).retErr = none
    ∧ (pollerTask 0 none).cancelled = true
    ∧ (none = (none : Option Err) →
        (pollerTask 0 none).events
          = [Event.pollCall 0, Event.setScheduledExit, Event.cancelShared]
        ∧ (pollerTask 0 none).setFlag = true)
    ∧ ((none : Option Err) ≠ none →
        (pollerTask 0 none).events = [Event.pollCall 0, Event.cancelShared]
        ∧ (pollerTask 0 none).setFlag = false) :=
  C4_single_shot_poller 0 none (by decide)

/-- Claim C9 (confirmed): the poller task function returns nil in both
modes, so any non-nil error retained by the join can only be the status
server result (and the server must have been enabled). -/
theorem C9_join_error_only_from_server (config : Config) (env : Env) (fuel : Nat)
    (r : RunResult) (c : Int) (p : Option Err)
    (h : Run config env fuel = some r) :
    (pollerTask c p).retErr = none
    ∧ (r.joinErr = none ∨ (serverEnabled config = true ∧ r.joinErr = env.serveResult)) := by
  refine ⟨pollerTask_retErr c p, ?_⟩
  rcases Run_eq_cases config env fuel r h with ⟨gev, hg, rfl⟩ | ⟨o, gev, hg, ho, rfl⟩
  · exact Or.inl rfl
  · rw [concurrentPhase_joinErr, joinErrOf_eq]
    cases hse : serverEnabled config
    · exact Or.inl (by simp)
    · exact Or.inr ⟨rfl, by simp⟩

/-- Witness for C9: the continuous-mode run whose join error is the
cancellation returned by the status server. -/
theorem C9_join_error_only_from_server_witness :
    (pollerTask 0 none).retErr = none
    ∧ (rOnContOk.joinErr = none
      ∨ (serverEnabled cfgOnCont = true ∧ rOnContOk.joinErr = envOk.serveResult)) :=
  C9_join_error_only_from_server cfgOnCont envOk 1 rOnContOk 0 none (by decide)

/-- Claim C10 (confirmed): when the `select` inside the ping loop
observes the shared signal, `Run` returns nil at once without waiting on
the join: the poller was never started, and the status server task, if
enabled, was started before the loop and is not waited for. -/
theorem C10_cancel_observed_no_join (config : Config) (env : Env) (fuel : Nat)
    (gev : List Event) (r : RunResult)
    (h : Run config env fuel = some r)
    (hg : gateLoop env fuel 0 = some (GateOutcome.earlyReturn, gev)) :
    r.ret = none ∧ r.joinPerformed = false ∧ r.pollerStarted = false
    ∧ r.serverStarted = serverEnabled config
    ∧ r.events = startEvents config ++ gev := by
  unfold Run at h
  rw [hg] at h
  have hr := (Option.some.inj h).symm
  subst hr
  exact ⟨rfl, rfl, rfl, rfl, rfl⟩

/-- Witness for C10: cancellation observed at the first iteration with
the status server enabled. -/
theorem C10_cancel_observed_no_join_witness :
    rOnContCancelNow.ret = none ∧ rOnContCancelNow.joinPerformed = false
    ∧ rOnContCancelNow.pollerStarted = false
    ∧ rOnContCancelNow.serverStarted = serverEnabled cfgOnCont
    ∧ rOnContCancelNow.events = startEvents cfgOnCont ++ [Event.pingAttempt 0] :=
  C10_cancel_observed_no_join cfgOnCont envCancelNow 1 [Event.pingAttempt 0]
    rOnContCancelNow (by decide) (by decide)

/-- Claim C1 (counterexample): with capacity 1, no status server and a
poll that fails with a non-cancellation error, `Run` returns nil, not
that error, and nothing triggers the shared signal: daemon.go:165-166
discards the poll result. -/
theorem C1_counterexample :
    envPollFail.pollResult = some (Err.other 7)
    ∧ Run cfgOffCont envPollFail 1 = some rOffContPollFail
    ∧ rOffContPollFail.ret = none
    ∧ rOffContPollFail.ret ≠ some (Err.other 7)
    ∧ rOffContPollFail.sharedCancelledByPoller = false
    ∧ Event.cancelShared ∉ rOffContPollFail.events := by decide

/-- Claim C1 (amended, proved): in continuous mode the poll error is
discarded at the task boundary: the poller task returns nil to the join,
never triggers the shared signal, and the value `Run` returns is the
status-server result when the server is enabled and nil otherwise — it
does not depend on the poll error at all. -/
theorem C1_continuous_poll_error_discarded (config : Config) (env : Env) (fuel : Nat)
    (r : RunResult) (hcap : 1 ≤ config.capacity)
    (h : Run config env fuel = some r) (hj : r.joinPerformed = true) :
    (pollerTask config.capacity env.pollResult).retErr = none
    ∧ r.sharedCancelledByPoller = false
    ∧ r.ret = (if serverEnabled config then env.serveResult else none) := by
  have hnc : ¬ config.capacity < 1 := by omega
  have hpt : pollerTask config.capacity env.pollResult =
      { events := [Event.pollCall config.capacity]
        retErr := none, setFlag := false, cancelled := false } := by
    unfold pollerTask
    rw [if_neg hnc]
  rcases Run_eq_cases config env fuel r h with ⟨gev, hg, rfl⟩ | ⟨o, gev, hg, ho, rfl⟩
  · simp [earlyResult] at hj
  · refine ⟨pollerTask_retErr _ _, ?_, ?_⟩
    · rw [concurrentPhase_cancelled, hpt]
    · rw [concurrentPhase_ret, hpt]
      show classify (joinErrOf config env) false = _
      rw [classify_flag_false]
      exact joinErrOf_eq config env

/-- Witness for the amended C1. -/
theorem C1_continuous_poll_error_discarded_witness :
    (pollerTask cfgOffCont.capacity envPollFail.pollResult).retErr = none
    ∧ rOffContPollFail.sharedCancelledByPoller = false
    ∧ rOffContPollFail.ret
      = (if serverEnabled cfgOffCont then envPollFail.serveResult else none) :=
  C1_continuous_poll_error_discarded cfgOffCont envPollFail 1 rOffContPollFail
    (by decide) (by decide) (by decide)

/-- Claim C2 (counterexample): the status server task is started at
daemon.go:113, before the ping loop at daemon.go:123 has run at all: in
this run the server-start event is at index 0 while the gate completes
at index 2, so the gate does not complete before every concurrent task
starts. -/
theorem C2_counterexample :
    Run cfgOnCont envOk 1 = some rOnContOk
    ∧ rOnContOk.events.findIdx isServerStart = 0
    ∧ rOnContOk.events.findIdx isGateCompleted = 2
    ∧ Event.serverTaskStarted ∈ rOnContOk.events
    ∧ Event.gateCompleted ∈ rOnContOk.events := by decide

/-- Claim C2 (amended, proved): the ping loop fully completes before
the poller task is started; the loop contributes only ping attempts and
sleeps; and the events before the loop are exactly the server-task
start, present when the server is enabled — which is therefore started
before, not after, the gate. -/
theorem C2_gate_before_poller (config : Config) (env : Env) (fuel : Nat) (r : RunResult)
    (h : Run config env fuel = some r) (hp : r.pollerStarted = true) :
    r.events = startEvents config ++ gateEventsOf env fuel
      ++ Event.gateCompleted :: Event.pollerTaskStarted :: concurrentTail config env
    ∧ (gateEventsOf env fuel).all isGateEvent = true
    ∧ (startEvents config).all isServerStart = true := by
  rcases Run_eq_cases config env fuel r h with ⟨gev, hg, rfl⟩ | ⟨o, gev, hg, ho, rfl⟩
  · simp [earlyResult] at hp
  · have hge : gateEventsOf env fuel = gev := by
      unfold gateEventsOf
      rw [hg]
      rfl
    refine ⟨?_, ?_, ?_⟩
    · rw [hge]
      rfl
    · rw [hge]
      exact gateLoop_events env fuel 0 o gev hg
    · cases hse : serverEnabled config <;> simp [startEvents, hse, isServerStart]

/-- Witness for the amended C2. -/
theorem C2_gate_before_poller_witness :
    rOnContOk.events = startEvents cfgOnCont ++ gateEventsOf envOk 1
      ++ Event.gateCompleted :: Event.pollerTaskStarted :: concurrentTail cfgOnCont envOk
    ∧ (gateEventsOf envOk 1).all isGateEvent = true
    ∧ (startEvents cfgOnCont).all isServerStart = true :=
  C2_gate_before_poller cfgOnCont envOk 1 rOnContOk (by decide) (by decide)

/-- Claim C5 (counterexample): capacity 0, status server enabled, poll
cycle fails: the scheduled-exit flag stays false, the server ends with
the cancellation condition, and `Run` returns `context.Canceled` — not
nil — because daemon.go:171 only suppresses the cancellation when the
flag is set. -/
theorem C5_counterexample :
    cfgOnSingle.capacity < 1
    ∧ envPollFail.pollResult = some (Err.other 7)
    ∧ Run cfgOnSingle envPollFail 1 = some rOnSinglePollFail
    ∧ rOnSinglePollFail.ret = some Err.canceled
    ∧ rOnSinglePollFail.ret ≠ none := by decide

/-- Claim C5 (amended, proved): with capacity below 1 and a failing
poll cycle, `Run` returns nil when the status server is disabled; when
the server is enabled `Run` returns exactly the server result — the
cancellation condition, when the server unwinds through the shared
signal — because the scheduled-exit flag is false. -/
theorem C5_single_shot_error_outcome (config : Config) (env : Env) (fuel : Nat)
    (r : RunResult) (hcap : config.capacity < 1) (hpoll : env.pollResult ≠ none)
    (h : Run config env fuel = some r) (hj : r.joinPerformed = true) :
    (serverEnabled config = false → r.ret = none)
    ∧ (serverEnabled config = true → r.ret = env.serveResult) := by
  obtain ⟨pe, hpe⟩ : ∃ pe, env.pollResult = some pe := by
    cases hh : env.pollResult
    · exact absurd hh hpoll
    · exact ⟨_, rfl⟩
  have hpt : pollerTask config.capacity env.pollResult =
      { events := [Event.pollCall 0, Event.cancelShared]
        retErr := none, setFlag := false, cancelled := true } := by
    unfold pollerTask
    rw [if_pos hcap, hpe]
  rcases Run_eq_cases config env fuel r h with ⟨gev, hg, rfl⟩ | ⟨o, gev, hg, ho, rfl⟩
  · simp [earlyResult] at hj
  · constructor
    · intro hse
      rw [concurrentPhase_ret, hpt]
      show classify (joinErrOf config env) false = none
      rw [classify_flag_false, joinErrOf_eq]
      simp [hse]
    · intro hse
      rw [concurrentPhase_ret, hpt]
      show classify (joinErrOf config env) false = env.serveResult
      rw [classify_flag_false, joinErrOf_eq]
      simp [hse]

/-- Witness for the amended C5. -/
theorem C5_single_shot_error_outcome_witness :
    (serverEnabled cfgOnSingle = false → rOnSinglePollFail.ret = none)
    ∧ (serverEnabled cfgOnSingle = true → rOnSinglePollFail.ret = envPollFail.serveResult) :=
  C5_single_shot_error_outcome cfgOnSingle envPollFail 1 rOnSinglePollFail
    (by decide) (by decide) (by decide) (by decide)

/-- Claim C6 (counterexample): the parent lifetime is already over when
the ping loop starts and the status server is enabled: `Run` returns
nil and the poller is never started, but the server task WAS started —
at daemon.go:113, before the loop — so it is false that neither
concurrent task is ever started. -/
theorem C6_counterexample :
    envCancelNow.doneSelect 0 = true
    ∧ Run cfgOnCont envCancelNow 1 = some rOnContCancelNow
    ∧ rOnContCancelNow.ret = none
    ∧ rOnContCancelNow.pollerStarted = false
    ∧ rOnContCancelNow.serverStarted = true := by decide

/-- Claim C6 (amended, proved): if the shared signal is observed at the
`select` of some iteration of the ping loop, after any number of
retrying iterations and before any successful ping, then `Run` returns
nil, the poller task is never started and no join is performed; the
status server task was already started exactly when it is enabled. -/
theorem C6_cancel_during_gate (config : Config) (env : Env) (fuel n : Nat) (r : RunResult)
    (hcont : ∀ k, k < n → env.doneSelect k = false ∧ env.doneErrCheck k = false
      ∧ env.pingErr k ≠ none)
    (hn : env.doneSelect n = true) (hf : n < fuel)
    (h : Run config env fuel = some r) :
    r.ret = none ∧ r.pollerStarted = false ∧ r.joinPerformed = false
    ∧ r.serverStarted = serverEnabled config := by
  have hcont0 : ∀ k, k < n → env.doneSelect (0 + k) = false
      ∧ env.doneErrCheck (0 + k) = false ∧ env.pingErr (0 + k) ≠ none := by
    intro k hk
    simpa using hcont k hk
  obtain ⟨gev, hg⟩ := gateLoop_reach env n 0 fuel hcont0 (by simpa using hn) hf
  unfold Run at h
  rw [hg] at h
  have hr := (Option.some.inj h).symm
  subst hr
  exact ⟨rfl, rfl, rfl, rfl⟩

/-- Witness for the amended C6. -/
theorem C6_cancel_during_gate_witness :
    rOnContCancelNow.ret = none ∧ rOnContCancelNow.pollerStarted = false
    ∧ rOnContCancelNow.joinPerformed = false
    ∧ rOnContCancelNow.serverStarted = serverEnabled cfgOnCont :=
  C6_cancel_during_gate cfgOnCont envCancelNow 1 0 rOnContCancelNow
    (fun k hk => absurd hk (Nat.not_lt_zero k)) rfl (by decide) (by decide)

/-- Claim C7 (counterexample): the status server task fails first with
a non-cancellation error; the join retains that error, but the shared
signal is NOT triggered for the sibling: no internal cancel occurs
anywhere in the run, because daemon.go:99 builds the zero-value
`errgroup.Group`, which has no attached context. -/
theorem C7_counterexample :
    Run cfgOnCont envServeFail 1 = some rOnContServeFail
    ∧ rOnContServeFail.joinErr = some (Err.other 3)
    ∧ rOnContServeFail.sharedCancelledByPoller = false
    ∧ Event.cancelShared ∉ rOnContServeFail.events := by decide

/-- Claim C7 (amended, proved): the join does retain the first task
result that is a non-nil error, in completion order, discarding later
ones; but a failing task does not trigger the shared signal — the only
internal trigger during the concurrent phase is the single-stage
poller, so an execution in which the shared signal was internally
triggered must have capacity below 1. -/
theorem C7_first_error_retained (pre post : List (Option Err)) (e : Err)
    (config : Config) (env : Env) (fuel : Nat) (r : RunResult)
    (hpre : ∀ x ∈ pre, x = none)
    (h : Run config env fuel = some r) (hc : r.sharedCancelledByPoller = true) :
    errgroupWait (pre ++ some e :: post) = some e ∧ config.capacity < 1 := by
  constructor
  · clear h hc
    induction pre with
    | nil => rfl
    | cons a l ih =>
      have ha : a = none := hpre a (List.mem_cons_self a l)
      subst ha
      show errgroupWait (l ++ some e :: post) = some e
      exact ih fun x hx => hpre x (List.mem_cons_of_mem none hx)
  · rcases Run_eq_cases config env fuel r h with ⟨gev, hg, rfl⟩ | ⟨o, gev, hg, ho, rfl⟩
    · simp [earlyResult] at hc
    · rw [concurrentPhase_cancelled] at hc
      by_contra hcap
      unfold pollerTask at hc
      rw [if_neg hcap] at hc
      simp at hc

/-- Witness for the amended C7. -/
theorem C7_first_error_retained_witness :
    errgroupWait [none, some (Err.other 3)] = some (Err.other 3)
    ∧ cfgOnSingle.capacity < 1 :=
  C7_first_error_retained [none] [] (Err.other 3) cfgOnSingle envOk 1 rOnSingleOk
    (by decide) (by decide) (by decide)

/-- Claim C8 (confirmed): an iteration of the ping loop whose ping
fails while neither cancellation observation fires contributes exactly
one fixed one-second sleep before the next attempt — no backoff growth
— and under perpetually failing pings with no cancellation the loop
never terminates for any fuel: there is no retry limit. -/
theorem C8_retry_interval (env : Env) (n fuel m : Nat) (e : Err)
    (hsel : env.doneSelect n = false) (herr : env.doneErrCheck n = false)
    (hping : env.pingErr n = some e) :
    gateLoop env (fuel + 1) n = (gateLoop env fuel (n + 1)).map (prependRetry n)
    ∧ ((∀ k, env.doneSelect k = false) → (∀ k, env.doneErrCheck k = false)
      → (∀ k, env.pingErr k ≠ none) → gateLoop env fuel m = none) := by
  constructor
  · show (if env.doneSelect n then some (GateOutcome.earlyReturn, [Event.pingAttempt n])
        else if env.doneErrCheck n then some (GateOutcome.brokeCancelled, [Event.pingAttempt n])
        else match env.pingErr n with
          | some _ => (gateLoop env fuel (n + 1)).map (prependRetry n)
          | none => some (GateOutcome.connected, [Event.pingAttempt n]))
      = (gateLoop env fuel (n + 1)).map (prependRetry n)
    rw [hsel, herr, hping]
    simp
  · intro h1 h2 h3
    exact gateLoop_none_of_ping_fail env h1 h2 h3 fuel m

/-- Witness for C8: the remote server down forever. -/
theorem C8_retry_interval_witness :
    gateLoop envPingFail 3 0 = (gateLoop envPingFail 2 1).map (prependRetry 0)
    ∧ gateLoop envPingFail 2 0 = none :=
  ⟨(C8_retry_interval envPingFail 0 2 0 (Err.other 0) rfl rfl rfl).1,
   (C8_retry_interval envPingFail 0 2 0 (Err.other 0) rfl rfl rfl).2
     (fun _ => rfl) (fun _ => rfl) (fun k => by simp [envPingFail])⟩

end Daemon
